import Mathlib

/-!
Verification of the chirp message-passing library core against its
specification.  The definitions below are shallow embeddings of the C
sources under `src/`: machine integers become `Nat` with explicit
`% 2 ^ w` where overflow matters, structs become Lean structures, and
fallible code returns `Option`.  Each section names the C function it
embeds.
-/

namespace Chirp

/-- Chirp error codes, from `include/libchirp/error.h` (`ch_error_t`).
The misspelling `CH_IN_PRORESS` is the source's. -/
inductive ChError where
  | CH_SUCCESS
  | CH_VALUE_ERROR
  | CH_UV_ERROR
  | CH_PROTOCOL_ERROR
  | CH_EADDRINUSE
  | CH_FATAL
  | CH_TLS_ERROR
  | CH_UNINIT
  | CH_IN_PRORESS
  | CH_TIMEOUT
  | CH_ENOMEM
  | CH_SHUTDOWN
  | CH_CANNOT_CONNECT
  | CH_QUEUED
  | CH_USED
  | CH_MORE
  | CH_BUSY
  | CH_EMPTY
  | CH_WRITE_ERROR
  | CH_INIT_FAIL
  deriving DecidableEq, Repr

/-- Message type bit `CH_MSG_REQ_ACK` (message header, `ch_msg_type_t`). -/
def CH_MSG_REQ_ACK : Nat := 1

/-- Message type bit `CH_MSG_ACK`. -/
def CH_MSG_ACK : Nat := 2

/-- Message type bit `CH_MSG_NOOP`. -/
def CH_MSG_NOOP : Nat := 4

/-- Internal message flag `CH_MSG_FREE_HEADER` (`ch_msg_flags_t`). -/
def CH_MSG_FREE_HEADER : Nat := 1

/-- Internal message flag `CH_MSG_FREE_DATA`. -/
def CH_MSG_FREE_DATA : Nat := 2

/-- Internal message flag `CH_MSG_USED`. -/
def CH_MSG_USED : Nat := 4

/-- Internal message flag `CH_MSG_ACK_RECEIVED`. -/
def CH_MSG_ACK_RECEIVED : Nat := 8

/-- Internal message flag `CH_MSG_WRITE_DONE`. -/
def CH_MSG_WRITE_DONE : Nat := 16

/-- Internal message flag `CH_MSG_FAILURE = ACK_RECEIVED | WRITE_DONE`. -/
def CH_MSG_FAILURE : Nat := CH_MSG_ACK_RECEIVED ||| CH_MSG_WRITE_DONE

/-- Internal message flag `CH_MSG_HAS_SLOT`. -/
def CH_MSG_HAS_SLOT : Nat := 32

/-- Internal message flag `CH_MSG_SEND_ACK`. -/
def CH_MSG_SEND_ACK : Nat := 64

/-- Remote flag `CH_RM_CONN_BLOCKED` (`remote.h`, `ch_rm_flags_t`). -/
def CH_RM_CONN_BLOCKED : Nat := 1

/-!
## Slot pool (`src/buffer.c`, `src/buffer.h`)
-/

/-- The fields of the slot's embedded `ch_message_t` that `ch_bf_acquire`
stamps after the `memset` to zero: slot id (`_slot`), whether the pool
back-pointer (`_pool`) is set, and the internal flags (`_flags`).  `rest`
stands for the remaining bytes of the record; value `0` means they are
zeroed. -/
structure BfMsg where
  _slot : Nat
  _has_pool : Bool
  _flags : Nat
  rest : Nat
  deriving DecidableEq, Repr, Inhabited

/-- The all-zero message record, as left by `memset(&slot_buf->msg, 0, ...)`. -/
def BfMsg.zero : BfMsg := ⟨0, false, 0, 0⟩

/-- One slot record (`ch_bf_slot_t`): one-byte id, used flag (C int, 0 or 1),
embedded message. -/
structure ChBfSlot where
  id : Nat
  used : Nat
  msg : BfMsg
  deriving DecidableEq, Repr, Inhabited

/-- The slot pool (`ch_buffer_pool_t`): reference count, `max_slots` (uint8),
`used_slots` (uint8), the MSB-first free bitmap `free_slots` (uint32) and the
slot array. -/
structure ChBufferPool where
  refcnt : Nat
  max_slots : Nat
  used_slots : Nat
  free_slots : Nat
  slots : List ChBfSlot
  deriving DecidableEq, Repr, Inhabited

/-- Lookup table `bval` used by `ch_msb32`. -/
def ch_bval : List Nat := [0, 1, 2, 2, 3, 3, 3, 3, 4, 4, 4, 4, 4, 4, 4, 4]

/-- One conditional shift block of `ch_msb32`:
`if (x & mask) { r += s; x >>= s; }` acting on the pair `(r, x)`. -/
def ch_msb32_step (s mask : Nat) (p : Nat × Nat) : Nat × Nat :=
  if p.2 &&& mask ≠ 0 then (p.1 + s, p.2 >>> s) else p

/-- `ch_msb32` from `src/buffer.c`: most significant set bit of a 32-bit
word, as 1-based position (0 for input 0).  The three blocks use shifts
`16/1`, `16/2`, `16/4` and the table `bval` finishes the last 4 bits. -/
def ch_msb32 (x : Nat) : Nat :=
  let p := ch_msb32_step 4 0x000000F0
      (ch_msb32_step 8 0x0000FF00 (ch_msb32_step 16 0xFFFF0000 (0, x)))
  p.1 + ch_bval.getD p.2 0

/-- `ch_bf_init` from `src/buffer.c` (allocation success assumed; the
allocator is an external collaborator): zeroed pool with `refcnt = 1`,
`free_slots = 0xFFFFFFFFU << (32 - max_slots)` in uint32 arithmetic, and
`max_slots` zeroed slots with their ids set. -/
def ch_bf_init (max_slots : Nat) : ChBufferPool :=
  { refcnt := 1
    max_slots := max_slots
    used_slots := 0
    free_slots := (0xFFFFFFFF <<< (32 - max_slots)) % 2 ^ 32
    slots := (List.range max_slots).map fun i => { id := i, used := 0, msg := BfMsg.zero } }

/-- `ch_bf_acquire` from `src/buffer.c`.  Returns the updated pool and the
index of the acquired slot, or `none` when the pool is exhausted (the C
function returns `NULL` and changes nothing).  `used_slots` is a uint8, the
bitmap a uint32; `~(1 << (free - 1))` is the 32-bit complement mask. -/
def ch_bf_acquire (pool : ChBufferPool) : Option (ChBufferPool × Nat) :=
  if pool.used_slots < pool.max_slots then
    let used' := (pool.used_slots + 1) % 256
    let free := ch_msb32 pool.free_slots
    let free_slots' := pool.free_slots &&& ((2 ^ 32 - 1) ^^^ (1 <<< (free - 1)))
    let idx := 32 - free
    let slot := pool.slots.getD idx default
    let slot' : ChBfSlot :=
      { slot with
        used := 1
        msg := { BfMsg.zero with
                  _slot := slot.id, _has_pool := true, _flags := CH_MSG_HAS_SLOT } }
    some ({ pool with
            used_slots := used'
            free_slots := free_slots'
            slots := pool.slots.set idx slot' }, idx)
  else none

/-- `ch_bf_release` from `src/buffer.c`, release-mode semantics (the `A`
assert macros compile to no-ops; the explicit `in_pool` check reports a
double release and returns without touching the pool).  `used_slots -= 1`
is uint8 arithmetic. -/
def ch_bf_release (pool : ChBufferPool) (id : Nat) : ChBufferPool :=
  let in_pool := pool.free_slots &&& (1 <<< (31 - id))
  if in_pool ≠ 0 then pool
  else
    { pool with
      used_slots := (pool.used_slots + 255) % 256
      slots := pool.slots.set id { (pool.slots.getD id default) with used := 0 }
      free_slots := pool.free_slots ||| (1 <<< (31 - id)) }

/-- `ch_bf_is_exhausted` from `src/buffer.h`. -/
def ch_bf_is_exhausted (pool : ChBufferPool) : Bool :=
  pool.max_slots ≤ pool.used_slots

/-!
### Correctness of `ch_msb32`

`ch_msb32 x` is characterised for `0 < x < 2 ^ 32` by
`2 ^ (ch_msb32 x - 1) ≤ x < 2 ^ (ch_msb32 x)`, i.e. `ch_msb32 x - 1` is the
position of the highest set bit.
-/

/-- A mask of `n` ones shifted up by `k` selects exactly the bits of `x` at
and above position `k`, for `x < 2 ^ (n + k)`. -/
theorem and_mask_high (x n k : Nat) (hx : x < 2 ^ (n + k)) :
    x &&& ((2 ^ n - 1) <<< k) = (x >>> k) <<< k := by
  apply Nat.eq_of_testBit_eq
  intro i
  simp only [Nat.testBit_and, Nat.testBit_shiftLeft, Nat.testBit_shiftRight,
    Nat.testBit_two_pow_sub_one]
  by_cases hk : k ≤ i
  · have hik : k + (i - k) = i := by omega
    rw [hik]
    by_cases hn : i - k < n
    · simp [hk, hn]
    · have hbig : x.testBit i = false :=
        Nat.testBit_lt_two_pow
          (lt_of_lt_of_le hx (Nat.pow_le_pow_right (by norm_num) (by omega)))
      simp [hk, hn, hbig]
  · simp [hk]

theorem mask_hi_eq : (0xFFFF0000 : Nat) = (2 ^ 16 - 1) <<< 16 := by decide

theorem mask_mid_eq : (0x0000FF00 : Nat) = (2 ^ 8 - 1) <<< 8 := by decide

set_option maxRecDepth 4000 in
/-- For `0 < x < 2 ^ 8` the two upper blocks of `ch_msb32` are skipped and
the result is read off the table; checked exhaustively. -/
theorem ch_msb32_below8 :
    ∀ x : Nat, x < 2 ^ 8 → 0 < x →
      1 ≤ ch_msb32 x ∧ ch_msb32 x ≤ 8 ∧
      2 ^ (ch_msb32 x - 1) ≤ x ∧ x < 2 ^ ch_msb32 x := by
  decide

/-- Block reduction at 16: for `2 ^ 16 ≤ x < 2 ^ 32` the first block fires
and `ch_msb32` recurses on the upper half. -/
theorem ch_msb32_shift16 (x : Nat) (h1 : 2 ^ 16 ≤ x) (h2 : x < 2 ^ 32) :
    ch_msb32 x = 16 + ch_msb32 (x >>> 16) := by
  have hy : x >>> 16 < 2 ^ 16 := by
    rw [Nat.shiftRight_eq_div_pow]
    exact (Nat.div_lt_iff_lt_mul (by norm_num)).mpr (by norm_num at h2 ⊢; omega)
  have hy0 : 0 < x >>> 16 := by
    rw [Nat.shiftRight_eq_div_pow]
    exact Nat.div_pos h1 (Nat.two_pow_pos 16)
  have hne : x &&& 0xFFFF0000 ≠ 0 := by
    rw [mask_hi_eq, and_mask_high x 16 16 (by norm_num at h2 ⊢; omega)]
    rw [Nat.shiftLeft_eq]
    positivity
  have hz : (x >>> 16) &&& 0xFFFF0000 = 0 := by
    rw [mask_hi_eq, and_mask_high (x >>> 16) 16 16 (lt_trans hy (by norm_num))]
    have : (x >>> 16) >>> 16 = 0 := by
      rw [Nat.shiftRight_eq_div_pow]
      exact Nat.div_eq_of_lt hy
    rw [this]
    rfl
  unfold ch_msb32
  rw [show ch_msb32_step 16 0xFFFF0000 (0, x) = (16, x >>> 16) by
        simp [ch_msb32_step, hne]]
  rw [show ch_msb32_step 16 0xFFFF0000 (0, x >>> 16) = (0, x >>> 16) by
        simp [ch_msb32_step, hz]]
  by_cases c8 : (x >>> 16) &&& 0x0000FF00 ≠ 0
  · rw [show ch_msb32_step 8 0x0000FF00 (16, x >>> 16) = (24, (x >>> 16) >>> 8) by
          simp [ch_msb32_step, c8]]
    rw [show ch_msb32_step 8 0x0000FF00 (0, x >>> 16) = (8, (x >>> 16) >>> 8) by
          simp [ch_msb32_step, c8]]
    by_cases c4 : ((x >>> 16) >>> 8) &&& 0x000000F0 ≠ 0
    · rw [show ch_msb32_step 4 0x000000F0 (24, (x >>> 16) >>> 8) =
            (28, ((x >>> 16) >>> 8) >>> 4) by simp [ch_msb32_step, c4]]
      rw [show ch_msb32_step 4 0x000000F0 (8, (x >>> 16) >>> 8) =
            (12, ((x >>> 16) >>> 8) >>> 4) by simp [ch_msb32_step, c4]]
      dsimp only
      omega
    · rw [show ch_msb32_step 4 0x000000F0 (24, (x >>> 16) >>> 8) =
            (24, (x >>> 16) >>> 8) by simp [ch_msb32_step, c4]]
      rw [show ch_msb32_step 4 0x000000F0 (8, (x >>> 16) >>> 8) =
            (8, (x >>> 16) >>> 8) by simp [ch_msb32_step, c4]]
      dsimp only
      omega
  · rw [show ch_msb32_step 8 0x0000FF00 (16, x >>> 16) = (16, x >>> 16) by
          simp [ch_msb32_step, c8]]
    rw [show ch_msb32_step 8 0x0000FF00 (0, x >>> 16) = (0, x >>> 16) by
          simp [ch_msb32_step, c8]]
    by_cases c4 : (x >>> 16) &&& 0x000000F0 ≠ 0
    · rw [show ch_msb32_step 4 0x000000F0 (16, x >>> 16) = (20, (x >>> 16) >>> 4) by
          simp [ch_msb32_step, c4]]
      rw [show ch_msb32_step 4 0x000000F0 (0, x >>> 16) = (4, (x >>> 16) >>> 4) by
          simp [ch_msb32_step, c4]]
      dsimp only
      omega
    · rw [show ch_msb32_step 4 0x000000F0 (16, x >>> 16) = (16, x >>> 16) by
          simp [ch_msb32_step, c4]]
      rw [show ch_msb32_step 4 0x000000F0 (0, x >>> 16) = (0, x >>> 16) by
          simp [ch_msb32_step, c4]]
      dsimp only
      omega

/-- Block reduction at 8: for `2 ^ 8 ≤ x < 2 ^ 16` the first block is
skipped, the second fires. -/
theorem ch_msb32_shift8 (x : Nat) (h1 : 2 ^ 8 ≤ x) (h2 : x < 2 ^ 16) :
    ch_msb32 x = 8 + ch_msb32 (x >>> 8) := by
  have hy : x >>> 8 < 2 ^ 8 := by
    rw [Nat.shiftRight_eq_div_pow]
    exact (Nat.div_lt_iff_lt_mul (by norm_num)).mpr (by norm_num at h2 ⊢; omega)
  have hz1 : x &&& 0xFFFF0000 = 0 := by
    rw [mask_hi_eq, and_mask_high x 16 16 (lt_trans h2 (by norm_num))]
    have : x >>> 16 = 0 := by
      rw [Nat.shiftRight_eq_div_pow]
      exact Nat.div_eq_of_lt h2
    rw [this]
    rfl
  have hz1y : (x >>> 8) &&& 0xFFFF0000 = 0 := by
    rw [mask_hi_eq, and_mask_high (x >>> 8) 16 16 (lt_trans hy (by norm_num))]
    have : (x >>> 8) >>> 16 = 0 := by
      rw [Nat.shiftRight_eq_div_pow]
      exact Nat.div_eq_of_lt (lt_trans hy (by norm_num))
    rw [this]
    rfl
  have hne : x &&& 0x0000FF00 ≠ 0 := by
    rw [mask_mid_eq, and_mask_high x 8 8 h2, Nat.shiftLeft_eq]
    have hpos : 0 < x >>> 8 := by
      rw [Nat.shiftRight_eq_div_pow]
      exact Nat.div_pos h1 (Nat.two_pow_pos 8)
    positivity
  have hzy : (x >>> 8) &&& 0x0000FF00 = 0 := by
    rw [mask_mid_eq, and_mask_high (x >>> 8) 8 8 (lt_trans hy (by norm_num))]
    have : (x >>> 8) >>> 8 = 0 := by
      rw [Nat.shiftRight_eq_div_pow]
      exact Nat.div_eq_of_lt hy
    rw [this]
    rfl
  unfold ch_msb32
  rw [show ch_msb32_step 16 0xFFFF0000 (0, x) = (0, x) by simp [ch_msb32_step, hz1]]
  rw [show ch_msb32_step 16 0xFFFF0000 (0, x >>> 8) = (0, x >>> 8) by
        simp [ch_msb32_step, hz1y]]
  rw [show ch_msb32_step 8 0x0000FF00 (0, x) = (8, x >>> 8) by
        simp [ch_msb32_step, hne]]
  rw [show ch_msb32_step 8 0x0000FF00 (0, x >>> 8) = (0, x >>> 8) by
        simp [ch_msb32_step, hzy]]
  by_cases c4 : (x >>> 8) &&& 0x000000F0 ≠ 0
  · rw [show ch_msb32_step 4 0x000000F0 (8, x >>> 8) = (12, (x >>> 8) >>> 4) by
        simp [ch_msb32_step, c4]]
    rw [show ch_msb32_step 4 0x000000F0 (0, x >>> 8) = (4, (x >>> 8) >>> 4) by
        simp [ch_msb32_step, c4]]
    dsimp only
    omega
  · rw [show ch_msb32_step 4 0x000000F0 (8, x >>> 8) = (8, x >>> 8) by
        simp [ch_msb32_step, c4]]
    rw [show ch_msb32_step 4 0x000000F0 (0, x >>> 8) = (0, x >>> 8) by
        simp [ch_msb32_step, c4]]
    dsimp only
    omega

/-- Lifting the two-power bounds through a right shift. -/
theorem msb_shift_bounds (x s m : Nat) (hm : 1 ≤ m)
    (hlo : 2 ^ (m - 1) ≤ x >>> s) (hhi : x >>> s < 2 ^ m) :
    2 ^ (s + m - 1) ≤ x ∧ x < 2 ^ (s + m) := by
  rw [Nat.shiftRight_eq_div_pow] at hlo hhi
  constructor
  · have h := (Nat.le_div_iff_mul_le (Nat.pos_pow_of_pos s (by norm_num))).mp hlo
    calc 2 ^ (s + m - 1) = 2 ^ (m - 1) * 2 ^ s := by
          rw [← Nat.pow_add]; congr 1; omega
      _ ≤ x := h
  · have h := (Nat.div_lt_iff_lt_mul (Nat.pos_pow_of_pos s (by norm_num))).mp hhi
    calc x < 2 ^ m * 2 ^ s := h
      _ = 2 ^ (s + m) := by rw [← Nat.pow_add]; congr 1; omega

/-- `ch_msb32` below `2 ^ 16`. -/
theorem ch_msb32_below16 (x : Nat) (hx : x < 2 ^ 16) (h0 : 0 < x) :
    1 ≤ ch_msb32 x ∧ ch_msb32 x ≤ 16 ∧
      2 ^ (ch_msb32 x - 1) ≤ x ∧ x < 2 ^ ch_msb32 x := by
  by_cases h8 : x < 2 ^ 8
  · have h := ch_msb32_below8 x h8 h0
    exact ⟨h.1, by omega, h.2.2.1, h.2.2.2⟩
  · push_neg at h8
    have hr := ch_msb32_shift8 x h8 hx
    have hy : x >>> 8 < 2 ^ 8 := by
      rw [Nat.shiftRight_eq_div_pow]
      exact (Nat.div_lt_iff_lt_mul (by norm_num)).mpr (by norm_num at hx ⊢; omega)
    have hy0 : 0 < x >>> 8 := by
      rw [Nat.shiftRight_eq_div_pow]
      exact Nat.div_pos h8 (Nat.two_pow_pos 8)
    have h := ch_msb32_below8 (x >>> 8) hy hy0
    have hb := msb_shift_bounds x 8 (ch_msb32 (x >>> 8)) h.1 h.2.2.1 h.2.2.2
    refine ⟨by omega, by omega, ?_, ?_⟩
    · rw [hr]; exact hb.1
    · rw [hr]; exact hb.2

/-- Full correctness of `ch_msb32`: for `0 < x < 2 ^ 32`, the result `m`
satisfies `1 ≤ m ≤ 32` and `2 ^ (m - 1) ≤ x < 2 ^ m`, so `m - 1` is the
position of the highest set bit of `x`. -/
theorem ch_msb32_correct (x : Nat) (h0 : 0 < x) (h32 : x < 2 ^ 32) :
    1 ≤ ch_msb32 x ∧ ch_msb32 x ≤ 32 ∧
      2 ^ (ch_msb32 x - 1) ≤ x ∧ x < 2 ^ ch_msb32 x := by
  by_cases h16 : x < 2 ^ 16
  · have h := ch_msb32_below16 x h16 h0
    exact ⟨h.1, by omega, h.2.2.1, h.2.2.2⟩
  · push_neg at h16
    have hr := ch_msb32_shift16 x h16 h32
    have hy : x >>> 16 < 2 ^ 16 := by
      rw [Nat.shiftRight_eq_div_pow]
      exact (Nat.div_lt_iff_lt_mul (by norm_num)).mpr (by norm_num at h32 ⊢; omega)
    have hy0 : 0 < x >>> 16 := by
      rw [Nat.shiftRight_eq_div_pow]
      exact Nat.div_pos h16 (Nat.two_pow_pos 16)
    have h := ch_msb32_below16 (x >>> 16) hy hy0
    have hb := msb_shift_bounds x 16 (ch_msb32 (x >>> 16)) h.1 h.2.2.1 h.2.2.2
    refine ⟨by omega, by omega, ?_, ?_⟩
    · rw [hr]; exact hb.1
    · rw [hr]; exact hb.2

/-- The highest-bit position carries a set bit. -/
theorem testBit_of_pow_bounds (x p : Nat) (hlo : 2 ^ p ≤ x) (hhi : x < 2 ^ (p + 1)) :
    x.testBit p = true := by
  rw [Nat.testBit_to_div_mod]
  have hd : x / 2 ^ p = 1 := by
    have h1 : 1 ≤ x / 2 ^ p := (Nat.le_div_iff_mul_le (Nat.two_pow_pos p)).mpr (by omega)
    have h2 : x / 2 ^ p < 2 := (Nat.div_lt_iff_lt_mul (Nat.two_pow_pos p)).mpr
      (by rw [Nat.pow_succ] at hhi; omega)
    omega
  rw [hd]
  decide

/-- A number with a set bit is nonzero. -/
theorem ne_zero_of_testBit (x i : Nat) (h : x.testBit i = true) : x ≠ 0 := by
  intro h0
  rw [h0, Nat.zero_testBit] at h
  exact Bool.false_ne_true h

theorem list_getD_set_self {α : Type} (l : List α) (i : Nat) (a d : α)
    (h : i < l.length) : (l.set i a).getD i d = a := by
  simp [List.getD_eq_getElem?_getD, List.getElem?_set_self h]

theorem list_getD_set_ne {α : Type} (l : List α) (i j : Nat) (a d : α)
    (h : i ≠ j) : (l.set i a).getD j d = l.getD j d := by
  simp [List.getD_eq_getElem?_getD, List.getElem?_set_ne h]

/-!
### Pool invariant and the acquire/release contracts
-/

/-- Well-formedness of a slot pool, as established by `ch_bf_init` for
`max_slots` in `1..=32` and maintained across acquire/release: sizes in
range, slot ids stable, free bits confined to the top `max_slots` bitmap
positions, and a free bit available whenever the pool is not exhausted. -/
def poolWF (pool : ChBufferPool) : Prop :=
  1 ≤ pool.max_slots ∧ pool.max_slots ≤ 32 ∧
  pool.used_slots ≤ pool.max_slots ∧
  pool.free_slots < 2 ^ 32 ∧
  pool.slots.length = pool.max_slots ∧
  (∀ i, i < pool.max_slots → (pool.slots.getD i default).id = i) ∧
  (∀ j, j < 32 → pool.free_slots.testBit j = true → 32 - pool.max_slots ≤ j) ∧
  (pool.used_slots < pool.max_slots → pool.free_slots ≠ 0)

instance (pool : ChBufferPool) : Decidable (poolWF pool) := by
  unfold poolWF
  infer_instance

/-- `ch_bf_init` establishes the pool invariant for `max_slots` in `1..=32`. -/
theorem ch_bf_init_wf (m : Nat) (h1 : 1 ≤ m) (h2 : m ≤ 32) : poolWF (ch_bf_init m) := by
  refine ⟨h1, h2, by simp [ch_bf_init], Nat.mod_lt _ (Nat.two_pow_pos 32), ?_, ?_, ?_, ?_⟩
  · simp [ch_bf_init]
  · intro i hi
    simp only [ch_bf_init] at hi ⊢
    simp [List.getD_eq_getElem?_getD, List.getElem?_range, hi]
  · intro j hj htb
    simp only [ch_bf_init, Nat.testBit_mod_two_pow, Nat.testBit_shiftLeft,
      Bool.and_eq_true, decide_eq_true_eq] at htb
    exact htb.2.1
  · intro _
    apply ne_zero_of_testBit _ 31
    show ((0xFFFFFFFF <<< (32 - m)) % 2 ^ 32 : Nat).testBit 31 = true
    rw [show (0xFFFFFFFF : Nat) = 2 ^ 32 - 1 by norm_num]
    simp only [Nat.testBit_mod_two_pow, Nat.testBit_shiftLeft,
      Nat.testBit_two_pow_sub_one, Bool.and_eq_true, decide_eq_true_eq]
    refine ⟨by omega, by omega, by omega⟩

/-- What `ch_bf_acquire` guarantees on a well-formed pool.  When a slot is
free, acquire succeeds and returns the free slot with the lowest id (the
highest set bit of the MSB-first bitmap); it clears exactly that bitmap
bit, increments `used_slots`, marks the slot used and stamps the
zero-initialised embedded message with the slot id, the pool back-pointer
and `CH_MSG_HAS_SLOT`.  When the pool is exhausted, acquire returns `none`
(the C function returns `NULL` without modifying the pool). -/
def AcquireSpec (pool : ChBufferPool) : Prop :=
  (pool.used_slots < pool.max_slots →
    ∃ pool2 idx,
      ch_bf_acquire pool = some (pool2, idx) ∧
      idx < pool.max_slots ∧
      pool.free_slots.testBit (31 - idx) = true ∧
      (∀ j, j < idx → pool.free_slots.testBit (31 - j) = false) ∧
      pool2.used_slots = pool.used_slots + 1 ∧
      pool2.free_slots.testBit (31 - idx) = false ∧
      (∀ j, j < 32 → j ≠ 31 - idx →
        pool2.free_slots.testBit j = pool.free_slots.testBit j) ∧
      (pool2.slots.getD idx default).used = 1 ∧
      (pool2.slots.getD idx default).msg =
        { _slot := idx, _has_pool := true, _flags := CH_MSG_HAS_SLOT, rest := 0 } ∧
      pool2.max_slots = pool.max_slots ∧ pool2.refcnt = pool.refcnt) ∧
  (pool.used_slots = pool.max_slots → ch_bf_acquire pool = none)

/-- C5: On a pool initialised with `max_slots` in `1..=32` (invariant
`poolWF`), if `used_slots < max_slots` then `ch_bf_acquire` returns the free
slot with the lowest id — the highest set bit of the MSB-first free bitmap —
clears that bitmap bit, increments `used_slots`, marks the slot used,
zero-initialises the slot's embedded message and stamps it with the slot id,
the pool back-pointer and the `CH_MSG_HAS_SLOT` flag; if
`used_slots = max_slots` the pool is exhausted and acquire returns `none`,
changing nothing. -/
theorem C5_acquire_lowest_free_slot (pool : ChBufferPool) (hwf : poolWF pool) :
    AcquireSpec pool := by
  obtain ⟨hm1, hm32, hum, hfs32, hlen, hids, hbits, hnz⟩ := hwf
  constructor
  · intro hlt
    have hfs0 : pool.free_slots ≠ 0 := hnz hlt
    obtain ⟨hc1, hc32, hclo, hchi⟩ :=
      ch_msb32_correct pool.free_slots (Nat.pos_of_ne_zero hfs0) hfs32
    set m := ch_msb32 pool.free_slots with hmdef
    set p := m - 1 with hpdef
    have hchi' : pool.free_slots < 2 ^ (p + 1) := by
      have : p + 1 = m := by omega
      rw [this]
      exact hchi
    have htop : pool.free_slots.testBit p = true :=
      testBit_of_pow_bounds _ p hclo hchi'
    have hhigh : ∀ j, p < j → pool.free_slots.testBit j = false := by
      intro j hj
      exact Nat.testBit_lt_two_pow
        (lt_of_lt_of_le hchi (Nat.pow_le_pow_right (by norm_num) (by omega)))
    have hprange : 32 - pool.max_slots ≤ p := hbits p (by omega) htop
    have hidx : 32 - m < pool.max_slots := by omega
    have hidxp : 31 - (32 - m) = p := by omega
    refine ⟨{ pool with
              used_slots := (pool.used_slots + 1) % 256
              free_slots := pool.free_slots &&& ((2 ^ 32 - 1) ^^^ (1 <<< (m - 1)))
              slots := pool.slots.set (32 - m)
                { (pool.slots.getD (32 - m) default) with
                  used := 1
                  msg := { BfMsg.zero with
                            _slot := (pool.slots.getD (32 - m) default).id
                            _has_pool := true
                            _flags := CH_MSG_HAS_SLOT } } },
            32 - m, ?_, hidx, ?_, ?_, ?_, ?_, ?_, ?_, ?_, ?_, ?_⟩
    · unfold ch_bf_acquire
      rw [if_pos hlt]
    · rw [hidxp]
      exact htop
    · intro j hj
      have : p < 31 - j := by omega
      exact hhigh _ this
    · show (pool.used_slots + 1) % 256 = pool.used_slots + 1
      omega
    · show (pool.free_slots &&& ((2 ^ 32 - 1) ^^^ (1 <<< (m - 1)))).testBit (31 - (32 - m)) = false
      rw [hidxp, Nat.one_shiftLeft]
      simp only [Nat.testBit_and, Nat.testBit_xor, Nat.testBit_two_pow_sub_one,
        Nat.testBit_two_pow]
      rw [htop]
      simp [show p < 32 by omega, ← hpdef]
    · intro j hj hne
      show (pool.free_slots &&& ((2 ^ 32 - 1) ^^^ (1 <<< (m - 1)))).testBit j =
        pool.free_slots.testBit j
      rw [Nat.one_shiftLeft]
      simp only [Nat.testBit_and, Nat.testBit_xor, Nat.testBit_two_pow_sub_one,
        Nat.testBit_two_pow]
      rw [hidxp] at hne
      have h1 : decide (j < 32) = true := by simp [hj]
      have h2 : decide (m - 1 = j) = false := by
        simp only [decide_eq_false_iff_not]
        omega
      rw [h1, h2]
      simp
    · show ((pool.slots.set (32 - m) _).getD (32 - m) default).used = 1
      rw [list_getD_set_self _ _ _ _ (by omega)]
    · show ((pool.slots.set (32 - m) _).getD (32 - m) default).msg = _
      rw [list_getD_set_self _ _ _ _ (by omega)]
      have hid := hids (32 - m) hidx
      simp only [BfMsg.zero]
      rw [hid]
    · rfl
    · rfl
  · intro heq
    unfold ch_bf_acquire
    rw [if_neg (by omega)]

/-- C5 witness: a freshly initialised pool with 4 slots satisfies the
invariant and the acquire contract. -/
theorem C5_acquire_lowest_free_slot_witness :
    poolWF (ch_bf_init 4) ∧ AcquireSpec (ch_bf_init 4) :=
  ⟨ch_bf_init_wf 4 (by decide) (by decide),
    C5_acquire_lowest_free_slot (ch_bf_init 4) (ch_bf_init_wf 4 (by decide) (by decide))⟩

theorem and_one_shiftLeft_ne_zero (x i : Nat) (h : x.testBit i = true) :
    x &&& (1 <<< i) ≠ 0 := by
  apply ne_zero_of_testBit _ i
  rw [Nat.one_shiftLeft]
  simp [Nat.testBit_and, Nat.testBit_two_pow, h]

theorem and_one_shiftLeft_eq_zero (x i : Nat) (h : x.testBit i = false) :
    x &&& (1 <<< i) = 0 := by
  apply Nat.eq_of_testBit_eq
  intro j
  rw [Nat.one_shiftLeft]
  simp only [Nat.testBit_and, Nat.testBit_two_pow, Nat.zero_testBit]
  by_cases hij : i = j
  · subst hij
    simp [h]
  · simp [hij]

/-- Unfolding equation for `ch_bf_release`. -/
theorem ch_bf_release_eq (pool : ChBufferPool) (id : Nat) :
    ch_bf_release pool id =
      if pool.free_slots &&& (1 <<< (31 - id)) ≠ 0 then pool
      else
        { pool with
          used_slots := (pool.used_slots + 255) % 256
          slots := pool.slots.set id { (pool.slots.getD id default) with used := 0 }
          free_slots := pool.free_slots ||| (1 <<< (31 - id)) } := rfl

/-- C6: `ch_bf_release` detects a release of a slot whose bitmap bit is
already free and returns without modifying the pool; for a slot in use it
clears the slot's used flag, sets its bitmap bit (leaving every other bit
and every other slot unchanged) and decrements `used_slots`. -/
theorem C6_release_double_free_safe (pool : ChBufferPool) (id : Nat)
    (hlen : id < pool.slots.length) (hu : pool.used_slots < 256) :
    (pool.free_slots.testBit (31 - id) = true → ch_bf_release pool id = pool) ∧
    (pool.free_slots.testBit (31 - id) = false → 1 ≤ pool.used_slots →
      (ch_bf_release pool id).used_slots = pool.used_slots - 1 ∧
      (ch_bf_release pool id).free_slots.testBit (31 - id) = true ∧
      (∀ j, j ≠ 31 - id →
        (ch_bf_release pool id).free_slots.testBit j = pool.free_slots.testBit j) ∧
      ((ch_bf_release pool id).slots.getD id default).used = 0 ∧
      (∀ i, i ≠ id →
        (ch_bf_release pool id).slots.getD i default = pool.slots.getD i default) ∧
      (ch_bf_release pool id).max_slots = pool.max_slots ∧
      (ch_bf_release pool id).refcnt = pool.refcnt) := by
  constructor
  · intro hfree
    rw [ch_bf_release_eq, if_pos (and_one_shiftLeft_ne_zero _ _ hfree)]
  · intro hnotfree h1
    have hz : ¬ (pool.free_slots &&& (1 <<< (31 - id)) ≠ 0) := by
      simp [and_one_shiftLeft_eq_zero _ _ hnotfree]
    rw [ch_bf_release_eq, if_neg hz]
    refine ⟨by dsimp only; omega, ?_, ?_, ?_, ?_, rfl, rfl⟩
    · show (pool.free_slots ||| (1 <<< (31 - id))).testBit (31 - id) = true
      rw [Nat.one_shiftLeft]
      simp [Nat.testBit_or, Nat.testBit_two_pow]
    · intro j hj
      show (pool.free_slots ||| (1 <<< (31 - id))).testBit j = pool.free_slots.testBit j
      rw [Nat.one_shiftLeft]
      simp only [Nat.testBit_or, Nat.testBit_two_pow]
      have : decide (31 - id = j) = false := by
        simp only [decide_eq_false_iff_not]
        omega
      rw [this]
      simp
    · show ((pool.slots.set id _).getD id default).used = 0
      rw [list_getD_set_self _ _ _ _ hlen]
    · intro i hi
      show (pool.slots.set id _).getD i default = pool.slots.getD i default
      exact list_getD_set_ne _ _ _ _ _ (fun h => hi h.symm)

/-- A concrete pool for the C6 witness: 4 slots, slot 0 in use
(bitmap `0x70000000`), `used_slots = 1`. -/
def c6pool : ChBufferPool :=
  { refcnt := 2
    max_slots := 4
    used_slots := 1
    free_slots := 0x70000000
    slots := [⟨0, 1, ⟨0, true, CH_MSG_HAS_SLOT, 0⟩⟩, ⟨1, 0, BfMsg.zero⟩,
              ⟨2, 0, BfMsg.zero⟩, ⟨3, 0, BfMsg.zero⟩] }

/-- C6 witness: the release contract applied at slot 0 (in use) and at
slot 1 (already free) of a concrete pool. -/
theorem C6_release_double_free_safe_witness :
    ((c6pool.free_slots.testBit (31 - 0) = true → ch_bf_release c6pool 0 = c6pool) ∧
      (c6pool.free_slots.testBit (31 - 0) = false → 1 ≤ c6pool.used_slots →
        (ch_bf_release c6pool 0).used_slots = c6pool.used_slots - 1 ∧
        (ch_bf_release c6pool 0).free_slots.testBit (31 - 0) = true ∧
        (∀ j, j ≠ 31 - 0 →
          (ch_bf_release c6pool 0).free_slots.testBit j = c6pool.free_slots.testBit j) ∧
        ((ch_bf_release c6pool 0).slots.getD 0 default).used = 0 ∧
        (∀ i, i ≠ 0 →
          (ch_bf_release c6pool 0).slots.getD i default = c6pool.slots.getD i default) ∧
        (ch_bf_release c6pool 0).max_slots = c6pool.max_slots ∧
        (ch_bf_release c6pool 0).refcnt = c6pool.refcnt)) ∧
    (c6pool.free_slots.testBit (31 - 1) = true → ch_bf_release c6pool 1 = c6pool) :=
  ⟨C6_release_double_free_safe c6pool 0 (by decide) (by decide),
    (C6_release_double_free_safe c6pool 1 (by decide) (by decide)).1⟩

/-!
## Reader wire-message validation (`src/reader.c`)
-/

/-- The wire-message header fields read in the reader's WAIT state
(`ch_message_t` after `ch_sr_buf_to_msg`): `header_len` is a uint16,
`data_len` a uint32, `msg_type` the uint8 `type` bitset. -/
structure ChWireMsg where
  header_len : Nat
  data_len : Nat
  msg_type : Nat
  deriving DecidableEq, Repr

/-- `_ch_rd_verify_msg` from `src/reader.c` (lines 534-571).
`total_wire_msg_size` is the uint32 sum `header_len + data_len`; exceeding
`MAX_MSG_SIZE` yields `CH_ENOMEM` ("Message size exceeds hardlimit"), an
ACK/NOOP with payload or with `REQ_ACK` yields `CH_PROTOCOL_ERROR`. -/
def _ch_rd_verify_msg (max_msg_size : Nat) (m : ChWireMsg) : ChError :=
  let total_wire_msg_size := (m.header_len + m.data_len) % 2 ^ 32
  if max_msg_size < total_wire_msg_size then ChError.CH_ENOMEM
  else if m.msg_type &&& CH_MSG_ACK ≠ 0 ∨ m.msg_type &&& CH_MSG_NOOP ≠ 0 then
    if m.header_len ≠ 0 ∨ m.data_len ≠ 0 then ChError.CH_PROTOCOL_ERROR
    else if m.msg_type &&& CH_MSG_REQ_ACK ≠ 0 then ChError.CH_PROTOCOL_ERROR
    else ChError.CH_SUCCESS
  else ChError.CH_SUCCESS

/-- Outcome of the `CH_RD_WAIT` branch of `_ch_rd_read_step` once a full
wire header is available: `shutdown e` models
`ch_cn_shutdown(conn, e); return -1`, the other constructors the
NOOP/ACK handling and the transition to `CH_RD_SLOT`. -/
inductive RdWaitOutcome where
  | shutdown (reason : ChError)
  | handled_noop
  | handled_ack
  | to_slot
  deriving DecidableEq, Repr

/-- The decision logic of `_ch_rd_read_step` in state `CH_RD_WAIT`
(`src/reader.c` lines 404-437) after the wire header is parsed. -/
def _ch_rd_read_step_wait (max_msg_size : Nat) (m : ChWireMsg) : RdWaitOutcome :=
  let e := _ch_rd_verify_msg max_msg_size m
  if e ≠ ChError.CH_SUCCESS then RdWaitOutcome.shutdown e
  else if m.msg_type &&& CH_MSG_NOOP ≠ 0 then RdWaitOutcome.handled_noop
  else if m.msg_type &&& CH_MSG_ACK ≠ 0 then RdWaitOutcome.handled_ack
  else RdWaitOutcome.to_slot

/-- C1 counterexample: with `MAX_MSG_SIZE = 4`, a plain message of
`header_len = 0`, `data_len = 5` fails validation, but the reader shuts the
connection down with `CH_ENOMEM`, not with `CH_PROTOCOL_ERROR` as the claim
states. -/
theorem C1_oversize_shutdown_reason_counterexample :
    _ch_rd_read_step_wait 4 ⟨0, 5, 0⟩ ≠
        RdWaitOutcome.shutdown ChError.CH_PROTOCOL_ERROR ∧
      _ch_rd_read_step_wait 4 ⟨0, 5, 0⟩ = RdWaitOutcome.shutdown ChError.CH_ENOMEM := by
  decide

/-- C1 (amended): in the reader's WAIT state, if the uint32 sum
`header_len + data_len` exceeds `MAX_MSG_SIZE` the step fails and the
connection is shut down with `CH_ENOMEM`; if the type has ACK or NOOP set
together with a non-zero `header_len` or `data_len`, or together with
`REQ_ACK`, the step fails and the connection is shut down with
`CH_PROTOCOL_ERROR`; a plain message whose `header_len + data_len` equals
`MAX_MSG_SIZE` passes validation and the reader moves on to `CH_RD_SLOT`. -/
theorem C1_wait_validation (max_msg_size : Nat) (m : ChWireMsg)
    (hh : m.header_len < 2 ^ 16) (hd : m.data_len < 2 ^ 32) :
    (max_msg_size < (m.header_len + m.data_len) % 2 ^ 32 →
      _ch_rd_read_step_wait max_msg_size m = RdWaitOutcome.shutdown ChError.CH_ENOMEM) ∧
    ((m.header_len + m.data_len) % 2 ^ 32 ≤ max_msg_size →
      (m.msg_type &&& CH_MSG_ACK ≠ 0 ∨ m.msg_type &&& CH_MSG_NOOP ≠ 0) →
      (m.header_len ≠ 0 ∨ m.data_len ≠ 0) →
      _ch_rd_read_step_wait max_msg_size m =
        RdWaitOutcome.shutdown ChError.CH_PROTOCOL_ERROR) ∧
    ((m.msg_type &&& CH_MSG_ACK ≠ 0 ∨ m.msg_type &&& CH_MSG_NOOP ≠ 0) →
      m.header_len = 0 → m.data_len = 0 → m.msg_type &&& CH_MSG_REQ_ACK ≠ 0 →
      _ch_rd_read_step_wait max_msg_size m =
        RdWaitOutcome.shutdown ChError.CH_PROTOCOL_ERROR) ∧
    ((m.header_len + m.data_len) % 2 ^ 32 = max_msg_size →
      m.msg_type &&& CH_MSG_ACK = 0 → m.msg_type &&& CH_MSG_NOOP = 0 →
      _ch_rd_verify_msg max_msg_size m = ChError.CH_SUCCESS ∧
        _ch_rd_read_step_wait max_msg_size m = RdWaitOutcome.to_slot) := by
  refine ⟨?_, ?_, ?_, ?_⟩
  · intro hover
    have hover2 : max_msg_size < (m.header_len + m.data_len) % 4294967296 := by omega
    simp [_ch_rd_read_step_wait, _ch_rd_verify_msg, hover2]
  · intro hle hct hpayload
    have hle2 : ¬ max_msg_size < (m.header_len + m.data_len) % 4294967296 := by omega
    simp [_ch_rd_read_step_wait, _ch_rd_verify_msg, hle2, hct, hpayload]
  · intro hct hh0 hd0 hreq
    simp [_ch_rd_read_step_wait, _ch_rd_verify_msg, hct, hh0, hd0, hreq]
  · intro heq hack hnoop
    have hle2 : ¬ max_msg_size < (m.header_len + m.data_len) % 4294967296 := by omega
    constructor
    · simp [_ch_rd_verify_msg, hle2, hack, hnoop]
    · simp [_ch_rd_read_step_wait, _ch_rd_verify_msg, hle2, hack, hnoop]

/-- C1 witness: the amended validation contract evaluated for
`MAX_MSG_SIZE = 8` at an oversize message, an ACK with payload, a NOOP
with `REQ_ACK`, and a plain message of total size exactly 8. -/
theorem C1_wait_validation_witness :
    (8 < (0 + 9) % 2 ^ 32 →
      _ch_rd_read_step_wait 8 ⟨0, 9, 0⟩ = RdWaitOutcome.shutdown ChError.CH_ENOMEM) ∧
    ((3 + 0) % 2 ^ 32 ≤ 8 →
      ((2 : Nat) &&& CH_MSG_ACK ≠ 0 ∨ (2 : Nat) &&& CH_MSG_NOOP ≠ 0) →
      ((3 : Nat) ≠ 0 ∨ (0 : Nat) ≠ 0) →
      _ch_rd_read_step_wait 8 ⟨3, 0, 2⟩ =
        RdWaitOutcome.shutdown ChError.CH_PROTOCOL_ERROR) ∧
    (((5 : Nat) &&& CH_MSG_ACK ≠ 0 ∨ (5 : Nat) &&& CH_MSG_NOOP ≠ 0) →
      (0 : Nat) = 0 → (0 : Nat) = 0 → (5 : Nat) &&& CH_MSG_REQ_ACK ≠ 0 →
      _ch_rd_read_step_wait 8 ⟨0, 0, 5⟩ =
        RdWaitOutcome.shutdown ChError.CH_PROTOCOL_ERROR) ∧
    ((3 + 5) % 2 ^ 32 = 8 →
      (0 : Nat) &&& CH_MSG_ACK = 0 → (0 : Nat) &&& CH_MSG_NOOP = 0 →
      _ch_rd_verify_msg 8 ⟨3, 5, 0⟩ = ChError.CH_SUCCESS ∧
        _ch_rd_read_step_wait 8 ⟨3, 5, 0⟩ = RdWaitOutcome.to_slot) :=
  ⟨(C1_wait_validation 8 ⟨0, 9, 0⟩ (by decide) (by decide)).1,
    (C1_wait_validation 8 ⟨3, 0, 2⟩ (by decide) (by decide)).2.1,
    (C1_wait_validation 8 ⟨0, 0, 5⟩ (by decide) (by decide)).2.2.1,
    (C1_wait_validation 8 ⟨3, 5, 0⟩ (by decide) (by decide)).2.2.2⟩

/-!
## Garbage collection of remotes (`src/protocol.c`, `_ch_pr_gc_connections_cb`)

The GC threshold is computed from `uv_hrtime()` (nanoseconds, uint64):
`then = now - 1000 * 1000 * 1000 * REUSE_TIME`.  Remote timestamps, however,
are everywhere stamped from `uv_now()` (`src/remote.c` line 84,
`src/reader.c` lines 277-279 and 412-414), which is libuv's cached loop time
in milliseconds, i.e. `uv_hrtime() / 1000000`.  `REUSE_TIME` lives in the
config struct (`libchirp/chirp.h`, not among the sources); per the spec it
is a number of seconds in `[0.5, 3600]`, modelled here as a whole number of
seconds.
-/

/-- libuv contract: `uv_now` returns the loop time in milliseconds, derived
from the nanosecond monotonic clock `uv_hrtime` as `hrtime / 10^6`. -/
def uv_now_of_hrtime (hr : Nat) : Nat := hr / 1000000

/-- The fields of `ch_remote_t` read by the GC sweep: flags byte,
uint64 `timestamp`, current connection and the data-message queue. -/
structure GcRemote where
  rid : Nat
  flags : Nat
  timestamp : Nat
  conn : Option Nat
  msg_queue : List Nat
  deriving DecidableEq, Repr

/-- The threshold `then = now - (1000 * 1000 * 1000 * REUSE_TIME)` of
`_ch_pr_gc_connections_cb`, in uint64 arithmetic; `now` is `uv_hrtime()`. -/
def gc_then (now reuse_time : Nat) : Nat :=
  (now % 2 ^ 64 + 2 ^ 64 - (1000 * 1000 * 1000 * reuse_time) % 2 ^ 64) % 2 ^ 64

/-- The remote-selection test of the sweep (`src/protocol.c` lines 232-238):
a remote is pushed on the delete stack iff it is not `CH_RM_CONN_BLOCKED`
and `timestamp < then`. -/
def gc_selects_remote (reuse_time now : Nat) (r : GcRemote) : Bool :=
  (r.flags &&& CH_RM_CONN_BLOCKED == 0) && (r.timestamp % 2 ^ 64 < gc_then now reuse_time)

/-- The remotes half of `_ch_pr_gc_connections_cb` (lines 231-258): the
first component is the remotes tree after the sweep, the second the
collected remotes, each of which has its queued messages aborted with
`CH_SHUTDOWN`, its connection (if any) shut down, and is removed from the
tree and freed. -/
def _ch_pr_gc_remotes (reuse_time now : Nat) (remotes : List GcRemote) :
    List GcRemote × List GcRemote :=
  (remotes.filter (fun r => ! gc_selects_remote reuse_time now r),
    remotes.filter (fun r => gc_selects_remote reuse_time now r))

/-- The sweep instant of the C2 failing input: `uv_hrtime() = 61 s` in
nanoseconds (REUSE_TIME is 30 s). -/
def c2now : Nat := 61 * 1000 * 1000 * 1000

/-- The C2 failing remote: not blocked, last used at the very sweep instant
(timestamp stamped from `uv_now` as the code does), one queued message. -/
def c2remote : GcRemote :=
  { rid := 1, flags := 0, timestamp := uv_now_of_hrtime c2now, conn := none,
    msg_queue := [5] }

/-- C2: a remote whose timestamp was stamped from `uv_now` at the very
instant of the sweep — idle for 0 of the 30 configured REUSE_TIME seconds —
is nevertheless selected and removed by the GC sweep, because the remote
timestamps are milliseconds while the GC threshold is computed in
nanoseconds.  The claim says such a remote is never collected. -/
theorem C2_gc_collects_fresh_remote :
    c2remote.flags &&& CH_RM_CONN_BLOCKED = 0 ∧
    c2remote.timestamp = uv_now_of_hrtime c2now ∧
    gc_selects_remote 30 c2now c2remote = true ∧
    (_ch_pr_gc_remotes 30 c2now [c2remote]).1 = [] ∧
    (_ch_pr_gc_remotes 30 c2now [c2remote]).2 = [c2remote] := by
  refine ⟨rfl, rfl, by decide, ?_, ?_⟩ <;> decide

/-!
## Connection shutdown (`src/connection.c`, `ch_cn_shutdown`)
-/

/-- The message fields `ch_cn_shutdown` touches: an identifier standing for
the message's address (pointer equality becomes id equality), the internal
flags byte, and whether a `_send_cb` is still set. -/
structure CnMessage where
  mid : Nat
  _flags : Nat
  has_send_cb : Bool
  deriving DecidableEq, Repr

/-- The fields of `ch_remote_t` used during connection shutdown. -/
structure CnRemote where
  wait_ack_message : Option CnMessage
  conn : Option Nat
  ack_msg_queue : List CnMessage
  msg_queue : List CnMessage
  flags : Nat
  deriving DecidableEq, Repr

/-- The fields of `ch_connection_t` used during shutdown: id, the
`CH_CN_SHUTTING_DOWN` flag, the `CH_CN_INIT_CLIENT` and
`CH_CN_INIT_CONNECT_TIMEOUT` init bits, whether `conn->remote` is set, the
writer's current message, and the shutdown-task semaphore. -/
structure CnConn where
  cid : Nat
  shutting_down : Bool
  init_client : Bool
  init_timeout : Bool
  remote_set : Bool
  writer_msg : Option CnMessage
  shutdown_tasks : Nat
  deriving DecidableEq, Repr

/-- The state `ch_cn_shutdown` can observe and modify: the connection, the
remotes-tree entry for its peer, the protocol's handshake and
old-connections sets (as id lists) and the node's closing accounting. -/
structure CnProtocolState where
  conn : CnConn
  remote : Option CnRemote
  handshake_conns : List Nat
  old_connections : List Nat
  closing : Bool
  closing_tasks : Nat
  deriving DecidableEq, Repr

/-- Callback invocations observable during shutdown. -/
inductive CnEvent where
  | send_cb (mid : Nat) (status : ChError)
  | process_queues
  deriving DecidableEq, Repr

/-- `ch_chirp_finish_message` from `src/chirp.c` (lines 917-990): fires the
send callback iff both `CH_MSG_ACK_RECEIVED` and `CH_MSG_WRITE_DONE` are
set, clearing those flags and `CH_MSG_USED`; always ends by dispatching the
remote's queues. -/
def ch_chirp_finish_message (m : CnMessage) (status : ChError) :
    CnMessage × List CnEvent :=
  if m._flags &&& CH_MSG_ACK_RECEIVED ≠ 0 ∧ m._flags &&& CH_MSG_WRITE_DONE ≠ 0 then
    let f1 := m._flags &&& ((2 ^ 8 - 1) ^^^ (CH_MSG_ACK_RECEIVED ||| CH_MSG_WRITE_DONE))
    let f2 := f1 &&& ((2 ^ 8 - 1) ^^^ CH_MSG_USED)
    if m.has_send_cb then
      ({ m with _flags := f2, has_send_cb := false },
        [CnEvent.send_cb m.mid status, CnEvent.process_queues])
    else ({ m with _flags := f2 }, [CnEvent.process_queues])
  else (m, [CnEvent.process_queues])

/-- `_ch_cn_abort_one_message` from `src/connection.c` (lines 97-135):
dequeue one message, preferring the ack queue, and fire its send callback
with the error. -/
def _ch_cn_abort_one_message (rm : CnRemote) (error : ChError) :
    CnRemote × List CnEvent :=
  match rm.ack_msg_queue with
  | m :: rest =>
      ({ rm with ack_msg_queue := rest },
        if m.has_send_cb then [CnEvent.send_cb m.mid error] else [])
  | [] =>
      match rm.msg_queue with
      | m :: rest =>
          ({ rm with msg_queue := rest },
            if m.has_send_cb then [CnEvent.send_cb m.mid error] else [])
      | [] => (rm, [])

/-- `_ch_cn_closing` (`src/connection.c` lines 185-226): stop reads, free
reader/writer, close the client handle and connect timeout, incrementing
the shutdown-task semaphore per issued close. -/
def _ch_cn_closing (c : CnConn) : CnConn :=
  let c1 :=
    if c.init_client then
      { c with init_client := false, shutdown_tasks := c.shutdown_tasks + 1 }
    else c
  if c1.init_timeout then
    { c1 with init_timeout := false, shutdown_tasks := c1.shutdown_tasks + 1 }
  else c1

/-- Result of a `ch_cn_shutdown` call that returns. -/
structure ShutdownResult where
  status : ChError
  state : CnProtocolState
  events : List CnEvent
  deriving DecidableEq, Repr

/-- `ch_cn_shutdown` from `src/connection.c` (lines 628-708).  An already
shutting-down connection gets `CH_IN_PRORESS` with nothing touched.
Otherwise: set `CH_CN_SHUTTING_DOWN`, debounce (mark the remote
`CH_RM_CONN_BLOCKED`; the C looks it up by key in the remotes tree), remove
the connection from the handshake and old-connections sets, detach it from
its remote, clear the remote's `wait_ack_message` and ack queue, then
finish or abort messages:
if a waiting-for-ack message `wam` exists it gets `CH_MSG_FAILURE` and is
finished with the reason; if the writer holds a message `msg` distinct from
`wam`, the code executes `wam->_flags |= CH_MSG_FAILURE` — dereferencing
`wam` even when it is `NULL` — and finishes `msg`; if neither exists but the
remote does, one head-of-line message is aborted.  `none` models the NULL
dereference. -/
def ch_cn_shutdown (s : CnProtocolState) (reason : ChError) :
    Option ShutdownResult :=
  if s.conn.shutting_down then some ⟨ChError.CH_IN_PRORESS, s, []⟩
  else
    let conn1 := { s.conn with shutting_down := true }
    let remote := if s.conn.remote_set then s.remote else none
    let hs := s.handshake_conns.filter (fun c => c ≠ conn1.cid)
    let oc := s.old_connections.filter (fun c => c ≠ conn1.cid)
    let conn2 := { conn1 with remote_set := false }
    let msg := s.conn.writer_msg
    let afterMessages : Option (Option CnRemote × List CnEvent) :=
      match remote with
      | none =>
          match msg with
          | some _ => none
          | none => some (s.remote, [])
      | some rm0 =>
          let wam := rm0.wait_ack_message
          let rm1 :=
            { rm0 with
              wait_ack_message := none
              conn := if rm0.conn = some conn1.cid then none else rm0.conn
              ack_msg_queue := []
              flags := rm0.flags ||| CH_RM_CONN_BLOCKED }
          match wam, msg with
          | none, some _ => none
          | none, none =>
              let (rm2, ev) := _ch_cn_abort_one_message rm1 reason
              some (some rm2, ev)
          | some w, none =>
              let w1 := { w with _flags := w._flags ||| CH_MSG_FAILURE }
              let (_, ev) := ch_chirp_finish_message w1 reason
              some (some rm1, ev)
          | some w, some m =>
              if m.mid = w.mid then
                let w1 := { w with _flags := w._flags ||| CH_MSG_FAILURE }
                let (_, ev) := ch_chirp_finish_message w1 reason
                some (some rm1, ev)
              else
                let w1 := { w with _flags := w._flags ||| CH_MSG_FAILURE }
                let (_, ev1) := ch_chirp_finish_message w1 reason
                let (_, ev2) := ch_chirp_finish_message m reason
                some (some rm1, ev1 ++ ev2)
    match afterMessages with
    | none => none
    | some (rm', ev) =>
        let tasks := if s.closing then s.closing_tasks + 1 else s.closing_tasks
        let conn3 := _ch_cn_closing conn2
        some ⟨ChError.CH_SUCCESS,
          { conn := conn3, remote := rm', handshake_conns := hs,
            old_connections := oc, closing := s.closing, closing_tasks := tasks },
          ev⟩

/-- `_ch_cn_closing` does not touch the `CH_CN_SHUTTING_DOWN` flag. -/
theorem _ch_cn_closing_shutting_down (c : CnConn) :
    (_ch_cn_closing c).shutting_down = c.shutting_down := by
  unfold _ch_cn_closing
  dsimp only
  split <;> split <;> rfl

/-- The C3 failing connection state: not yet shutting down, the writer holds
an in-flight message, the remote exists but holds no waiting-for-ack
message. -/
def c3state : CnProtocolState :=
  { conn :=
      { cid := 7
        shutting_down := false
        init_client := true
        init_timeout := false
        remote_set := true
        writer_msg := some
          ⟨42, CH_MSG_USED ||| CH_MSG_WRITE_DONE, true⟩
        shutdown_tasks := 0 }
    remote := some ⟨none, some 7, [], [], 0⟩
    handshake_conns := []
    old_connections := []
    closing := false
    closing_tasks := 0 }

/-- C3: shutting down a connection whose writer holds an in-flight message
while the remote has no waiting-for-ack message crashes: the in-flight
branch of `ch_cn_shutdown` executes `wam->_flags |= CH_MSG_FAILURE` with
`wam == NULL` instead of setting the failure flags on the in-flight message
(`src/connection.c` lines 680-683). -/
theorem C3_shutdown_null_wam_crash :
    c3state.conn.shutting_down = false ∧
    c3state.conn.writer_msg.isSome = true ∧
    (c3state.remote.bind fun rm => rm.wait_ack_message) = none ∧
    ch_cn_shutdown c3state ChError.CH_WRITE_ERROR = none := by
  refine ⟨rfl, rfl, rfl, ?_⟩
  decide

/-- The C7 counterexample state: a connection not yet shutting down whose
writer holds an in-flight message while no waiting-for-ack message exists. -/
def c7crash : CnProtocolState :=
  { conn :=
      { cid := 3
        shutting_down := false
        init_client := true
        init_timeout := true
        remote_set := true
        writer_msg := some ⟨13, CH_MSG_USED, false⟩
        shutdown_tasks := 0 }
    remote := some ⟨none, some 3, [], [], 0⟩
    handshake_conns := []
    old_connections := []
    closing := false
    closing_tasks := 0 }

/-- C7 counterexample: the claim says the first `ch_cn_shutdown` call on a
connection not yet shutting down returns `CH_SUCCESS`; on this concrete
connection the call never returns — it hits the NULL `wam` dereference of
`src/connection.c` line 681 — so it does not return `CH_SUCCESS`. -/
theorem C7_first_call_no_success_counterexample :
    c7crash.conn.shutting_down = false ∧
    ch_cn_shutdown c7crash ChError.CH_TIMEOUT = none := by
  refine ⟨rfl, ?_⟩
  decide

/-- C7 (amended): `ch_cn_shutdown` is idempotent — while
`CH_CN_SHUTTING_DOWN` is set, every call returns `CH_IN_PRORESS` and
leaves every observable connection, remote and protocol field unchanged
(and invokes no callback); the first call on a connection not yet shutting
down sets `CH_CN_SHUTTING_DOWN` and, provided the writer holds no
in-flight message while the waiting-for-ack message is absent (the crash
of `src/connection.c` line 681), returns `CH_SUCCESS`. -/
theorem C7_shutdown_idempotent (s : CnProtocolState) (reason : ChError) :
    (s.conn.shutting_down = true →
      ch_cn_shutdown s reason = some ⟨ChError.CH_IN_PRORESS, s, []⟩) ∧
    (s.conn.shutting_down = false →
      (s.conn.writer_msg = none ∨
        ((if s.conn.remote_set then s.remote else none).bind
          fun rm => rm.wait_ack_message).isSome = true) →
      (ch_cn_shutdown s reason).map (fun r => r.status) = some ChError.CH_SUCCESS ∧
      (ch_cn_shutdown s reason).map (fun r => r.state.conn.shutting_down) =
        some true) := by
  constructor
  · intro h
    unfold ch_cn_shutdown
    rw [if_pos h]
  · intro h hsafe
    obtain ⟨conn, remote, hsc, oc, closing, tasks⟩ := s
    obtain ⟨cid, sd, ic, it, rs, wmsg, st⟩ := conn
    simp only at h hsafe
    subst h
    rcases rs with _ | _
    · have hw : wmsg = none := by
        rcases hsafe with hw | hbad
        · exact hw
        · simp at hbad
      subst hw
      constructor <;> simp [ch_cn_shutdown, _ch_cn_closing_shutting_down]
    · rcases remote with _ | rm0
      · have hw : wmsg = none := by
          rcases hsafe with hw | hbad
          · exact hw
          · simp at hbad
        subst hw
        constructor <;> simp [ch_cn_shutdown, _ch_cn_closing_shutting_down]
      · obtain ⟨wam, rconn, aq, mq, rflags⟩ := rm0
        rcases wam with _ | w
        · have hw : wmsg = none := by
            rcases hsafe with hw | hbad
            · exact hw
            · simp at hbad
          subst hw
          rcases aq with _ | ⟨a, arest⟩
          · rcases mq with _ | ⟨q, qrest⟩ <;>
              constructor <;>
                simp [ch_cn_shutdown, _ch_cn_abort_one_message,
                  _ch_cn_closing_shutting_down]
          · constructor <;>
              simp [ch_cn_shutdown, _ch_cn_abort_one_message,
                _ch_cn_closing_shutting_down]
        · rcases wmsg with _ | m
          · constructor <;> simp [ch_cn_shutdown, _ch_cn_closing_shutting_down]
          · by_cases hm : m.mid = w.mid <;> constructor <;>
              simp [ch_cn_shutdown, hm, _ch_cn_closing_shutting_down]

/-- A connection already shutting down, for the C7 witness. -/
def c7down : CnProtocolState :=
  { conn :=
      { cid := 4
        shutting_down := true
        init_client := false
        init_timeout := false
        remote_set := false
        writer_msg := none
        shutdown_tasks := 2 }
    remote := none
    handshake_conns := []
    old_connections := [9]
    closing := false
    closing_tasks := 0 }

/-- A connection not yet shutting down with an idle writer, for the C7
witness. -/
def c7fresh : CnProtocolState :=
  { conn :=
      { cid := 5
        shutting_down := false
        init_client := true
        init_timeout := false
        remote_set := true
        writer_msg := none
        shutdown_tasks := 0 }
    remote := some ⟨none, some 5, [], [⟨21, CH_MSG_USED, true⟩], 0⟩
    handshake_conns := []
    old_connections := []
    closing := false
    closing_tasks := 0 }

/-- C7 witness: the idempotency contract applied to a connection already
shutting down and to a first shutdown of a quiescent connection. -/
theorem C7_shutdown_idempotent_witness :
    (c7down.conn.shutting_down = true →
      ch_cn_shutdown c7down ChError.CH_SHUTDOWN =
        some ⟨ChError.CH_IN_PRORESS, c7down, []⟩) ∧
    (c7fresh.conn.shutting_down = false →
      (c7fresh.conn.writer_msg = none ∨
        ((if c7fresh.conn.remote_set then c7fresh.remote else none).bind
          fun rm => rm.wait_ack_message).isSome = true) →
      (ch_cn_shutdown c7fresh ChError.CH_SHUTDOWN).map (fun r => r.status) =
        some ChError.CH_SUCCESS ∧
      (ch_cn_shutdown c7fresh ChError.CH_SHUTDOWN).map
          (fun r => r.state.conn.shutting_down) = some true) :=
  ⟨(C7_shutdown_idempotent c7down ChError.CH_SHUTDOWN).1,
    (C7_shutdown_idempotent c7fresh ChError.CH_SHUTDOWN).2⟩

/-!
## Handshake: binding the current connection (`src/reader.c`, lines 190-210)
-/

/-- The network-race resolution of `_ch_rd_handshake`: with the remote
found or inserted, save `old_conn = remote->conn`, set
`remote->conn = conn`, delete `conn` itself from `old_connections`
(`ch_cn_delete`), and insert the distinct previous connection, if any, into
`old_connections` (`ch_cn_insert`).  Connections are represented by their
ids, the old-connections tree by an id list. -/
def _ch_rd_handshake_bind (cid : Nat) (remote_conn : Option Nat)
    (old_connections : List Nat) : Option Nat × List Nat :=
  let old_conn := remote_conn
  let old2 := old_connections.filter (fun c => c ≠ cid)
  match old_conn with
  | some oc => if cid ≠ oc then (some cid, oc :: old2) else (some cid, old2)
  | none => (some cid, old2)

/-- C4: after the handshake completes, the remote's current connection is
exactly this connection; the previously current connection, if it exists
and is distinct, is in the old-connections set; and this connection itself
is not in the old-connections set. -/
theorem C4_handshake_current_connection (cid : Nat) (prev : Option Nat)
    (old_connections : List Nat) :
    (_ch_rd_handshake_bind cid prev old_connections).1 = some cid ∧
    (∀ oc, prev = some oc → oc ≠ cid →
      oc ∈ (_ch_rd_handshake_bind cid prev old_connections).2) ∧
    cid ∉ (_ch_rd_handshake_bind cid prev old_connections).2 := by
  unfold _ch_rd_handshake_bind
  rcases prev with _ | oc0
  · refine ⟨rfl, by simp, ?_⟩
    simp [List.mem_filter]
  · dsimp only
    by_cases hne : cid ≠ oc0
    · rw [if_pos hne]
      refine ⟨rfl, ?_, ?_⟩
      · intro oc hoc _
        injection hoc with hoc
        subst hoc
        exact List.mem_cons_self _ _
      · intro hmem
        rcases List.mem_cons.mp hmem with h | h
        · exact hne h
        · simp [List.mem_filter] at h
    · rw [if_neg hne]
      push_neg at hne
      refine ⟨rfl, ?_, ?_⟩
      · intro oc hoc hocne
        injection hoc with hoc
        omega
      · intro hmem
        simp [List.mem_filter] at hmem

/-- C4 witness: connection 1 completes the handshake while connection 2 is
current and 1 already sits in the old-connections set. -/
theorem C4_handshake_current_connection_witness :
    (_ch_rd_handshake_bind 1 (some 2) [1, 3]).1 = some 1 ∧
    (∀ oc, (some 2 : Option Nat) = some oc → oc ≠ 1 →
      oc ∈ (_ch_rd_handshake_bind 1 (some 2) [1, 3]).2) ∧
    1 ∉ (_ch_rd_handshake_bind 1 (some 2) [1, 3]).2 :=
  C4_handshake_current_connection 1 (some 2) [1, 3]

/-!
## Node init: MAX_SLOTS and IDENTITY (`src/chirp.c`, `ch_chirp_init`)
-/

/-- The configuration fields read by the MAX_SLOTS adjustment. -/
structure ChConfigSlots where
  SYNCHRONOUS : Bool
  MAX_SLOTS : Nat
  deriving DecidableEq, Repr

/-- The MAX_SLOTS adjustment of `ch_chirp_init` (`src/chirp.c` lines
798-804): `SYNCHRONOUS` forces 1; otherwise 0 defaults to 16. -/
def ch_chirp_init_max_slots (cfg : ChConfigSlots) : ChConfigSlots :=
  if cfg.SYNCHRONOUS then { cfg with MAX_SLOTS := 1 }
  else if cfg.MAX_SLOTS = 0 then { cfg with MAX_SLOTS := 16 }
  else cfg

/-- `ch_rd_init` (`src/reader.c` lines 589-604): allocates the reader's
pool and runs `ch_bf_init(pool, conn, ichirp->config.MAX_SLOTS)`. -/
def ch_rd_init (cfg : ChConfigSlots) : ChBufferPool := ch_bf_init cfg.MAX_SLOTS

/-- C8: the reader slot pool of an initialised node is created with the
effective MAX_SLOTS — 1 whenever `SYNCHRONOUS` is set, regardless of the
user value; 16 when asynchronous and the user left MAX_SLOTS at 0; the
user value otherwise. -/
theorem C8_effective_max_slots (cfg : ChConfigSlots) :
    (ch_rd_init (ch_chirp_init_max_slots cfg)).max_slots =
      (if cfg.SYNCHRONOUS then 1
        else if cfg.MAX_SLOTS = 0 then 16 else cfg.MAX_SLOTS) := by
  rcases cfg with ⟨sync, ms⟩
  rcases sync with _ | _
  · by_cases h : ms = 0 <;>
      simp [ch_rd_init, ch_chirp_init_max_slots, ch_bf_init, h]
  · simp [ch_rd_init, ch_chirp_init_max_slots, ch_bf_init]

/-- The leading-zero scan of `ch_chirp_init` (`src/chirp.c` lines 790-791):
`while (i < sizeof(IDENTITY) - 1 && IDENTITY[i] == 0) i += 1;` — the first
index below 15 holding a non-zero byte, or 15. -/
def ch_identity_scan (idb : List Nat) : Nat :=
  (idb.take 15).findIdx (fun b => b ≠ 0)

/-- The IDENTITY handling of `ch_chirp_init` (`src/chirp.c` lines 789-796)
over the 16 configured bytes: when the scan lands on a zero byte (the
configured identity is all zeroes) the identity is `rnd`, the freshly
generated random bytes; otherwise the C executes
`*ichirp->identity = *tmp_conf->IDENTITY`, copying exactly one byte onto
the `memset`-zeroed identity array. -/
def ch_chirp_init_identity (cfg_identity rnd : List Nat) : List Nat :=
  let i := ch_identity_scan cfg_identity
  if cfg_identity.getD i 0 = 0 then rnd
  else cfg_identity.getD 0 0 :: List.replicate 15 0

/-- `ch_chirp_get_identity` (`src/chirp.c` lines 706-721): copies the 16
identity bytes out. -/
def ch_chirp_get_identity (ident : List Nat) : List Nat := ident.take 16

/-- The C9 failing configured identity: bytes `01 02 00 … 00`. -/
def c9cfg_identity : List Nat := 1 :: 2 :: List.replicate 14 0

/-- Concrete random bytes for the C9 evaluation. -/
def c9random : List Nat := List.replicate 16 9

/-- C9: with the configured identity `01 02 00 … 00`, the node identity
returned by `ch_chirp_get_identity` is `01 00 … 00`, not the configured 16
bytes — only the first byte is copied (`src/chirp.c` line 795).  The
all-zero-to-random path works as claimed. -/
theorem C9_identity_one_byte_copied :
    ch_chirp_get_identity (ch_chirp_init_identity c9cfg_identity c9random) ≠
        c9cfg_identity ∧
      ch_chirp_init_identity c9cfg_identity c9random = 1 :: List.replicate 15 0 ∧
      ch_chirp_init_identity (List.replicate 16 0) c9random = c9random := by
  refine ⟨?_, ?_, ?_⟩ <;> decide

/-!
## Releasing a message slot (`src/chirp.c`, `ch_chirp_release_msg_slot`)
-/

/-- `ch_bf_free` from `src/buffer.c`: drop one pool reference, deallocating
at zero (`none`). -/
def ch_bf_free (pool : ChBufferPool) : Option ChBufferPool :=
  if pool.refcnt - 1 = 0 then none else some { pool with refcnt := pool.refcnt - 1 }

/-- The connection fields `ch_chirp_release_msg_slot` reads. -/
structure RelConn where
  shutting_down : Bool
  deriving DecidableEq, Repr

/-- The message fields `ch_chirp_release_msg_slot` reads. -/
structure RelMessage where
  identity : List Nat
  serial : Nat
  _slot : Nat
  _flags : Nat
  deriving DecidableEq, Repr

/-- Observable actions of `ch_chirp_release_msg_slot`. -/
inductive RelEvent where
  | fatal_no_slot
  | send_ack (identity : List Nat) (has_release_cb : Bool)
  | free_data
  | free_header
  | release_cb (identity : List Nat) (serial : Nat)
  | restart_stream
  deriving DecidableEq, Repr

/-- `ch_chirp_release_msg_slot` from `src/chirp.c` (lines 992-1054).  A
message without `CH_MSG_HAS_SLOT` is reported as fatal and nothing happens.
Otherwise: on a live connection a pending `CH_MSG_SEND_ACK` turns into an
ack send carrying the release callback (`call_cb = 0`); core-owned buffers
are freed; the release callback fires when no ack took it over; the slot is
released, one pool reference dropped, and a previously exhausted pool
restarts the read stream. -/
def ch_chirp_release_msg_slot (pool : ChBufferPool) (conn : Option RelConn)
    (msg : RelMessage) (has_release_cb : Bool) :
    Option ChBufferPool × List RelEvent :=
  if msg._flags &&& CH_MSG_HAS_SLOT = 0 then
    (some pool, [RelEvent.fatal_no_slot])
  else
    let conn_live : Bool :=
      match conn with
      | some c => ! c.shutting_down
      | none => false
    let sendAck : Bool := conn_live && (msg._flags &&& CH_MSG_SEND_ACK != 0)
    let ev1 := if sendAck then [RelEvent.send_ack msg.identity has_release_cb] else []
    let ev2 := if msg._flags &&& CH_MSG_FREE_DATA ≠ 0 then [RelEvent.free_data] else []
    let ev3 := if msg._flags &&& CH_MSG_FREE_HEADER ≠ 0 then [RelEvent.free_header] else []
    let ev4 :=
      if !sendAck && has_release_cb then [RelEvent.release_cb msg.identity msg.serial]
      else []
    let pool_is_empty := ch_bf_is_exhausted pool
    let pool1 := ch_bf_release pool msg._slot
    let pool2 := ch_bf_free pool1
    let ev5 := if pool_is_empty && conn.isSome then [RelEvent.restart_stream] else []
    (pool2, ev1 ++ ev2 ++ ev3 ++ ev4 ++ ev5)

/-- C10: releasing a message that does not carry `CH_MSG_HAS_SLOT` only
reports the error: the pool is returned untouched (no slot released, no
reference dropped) and no ack, release callback or stream restart
happens. -/
theorem C10_release_without_slot_noop (pool : ChBufferPool)
    (conn : Option RelConn) (msg : RelMessage) (has_release_cb : Bool)
    (h : msg._flags &&& CH_MSG_HAS_SLOT = 0) :
    ch_chirp_release_msg_slot pool conn msg has_release_cb =
      (some pool, [RelEvent.fatal_no_slot]) := by
  unfold ch_chirp_release_msg_slot
  rw [if_pos h]

/-- C10 witness: a message with empty flags released against a concrete
pool. -/
theorem C10_release_without_slot_noop_witness :
    (⟨[1], 5, 0, 0⟩ : RelMessage)._flags &&& CH_MSG_HAS_SLOT = 0 ∧
    ch_chirp_release_msg_slot c6pool (some ⟨false⟩) ⟨[1], 5, 0, 0⟩ true =
      (some c6pool, [RelEvent.fatal_no_slot]) :=
  ⟨by decide,
    C10_release_without_slot_noop c6pool (some ⟨false⟩) ⟨[1], 5, 0, 0⟩ true (by decide)⟩

end Chirp
